import Mathlib

/-!
Shallow embedding of the real-estate calculation engine
(`src/utils/calculations.py`) over exact rational arithmetic.

Conventions:
* Python floats are modelled as `ℚ` (the spec's properties are stated in
  exact arithmetic / within floating tolerance).
* Quantities that the code uses as exponents or loop counts
  (`term_years`, `payments_made`, `years_held`, `years`) are modelled as
  `ℕ`, so Python's guard `x <= 0` becomes `x = 0`.
* Python dictionaries keyed by year are modelled as association lists
  `List (ℕ × ℚ)` built in the source's insertion order; `dict.get(k, 0)`
  is `dictGet d k`.
* Code that can raise an exception (division by zero) is modelled with
  `Option`: `none` marks the raising input.
-/

namespace RealEstateCalc

/-- `d.get(k, 0)` on a year-keyed Python dict. -/
def dictGet : List (ℕ × ℚ) → ℕ → ℚ
  | [], _ => 0
  | (k', v) :: rest, k => if k' = k then v else dictGet rest k

/-! ## Amortization module -/

/-- `calculate_monthly_payment(loan_amount, annual_rate, term_years)`:
standard amortization payment with guards for non-positive principal or
term and a straight-line branch for a zero rate. -/
def calculate_monthly_payment (loan_amount annual_rate : ℚ) (term_years : ℕ) : ℚ :=
  if loan_amount ≤ 0 ∨ term_years = 0 then 0
  else if annual_rate = 0 then loan_amount / ((term_years : ℚ) * 12)
  else
    let monthly_rate := annual_rate / 12 / 100
    let num_payments := term_years * 12
    if monthly_rate = 0 then loan_amount / (num_payments : ℚ)
    else loan_amount * (monthly_rate * (1 + monthly_rate) ^ num_payments) /
      ((1 + monthly_rate) ^ num_payments - 1)

/-- `calculate_fv(rate, nper, pmt, pv)`: future value.  The zero-rate
branch returns `pv - pmt*nper` directly; only the nonzero-rate branch
clamps the result at 0. -/
def calculate_fv (rate : ℚ) (nper : ℕ) (pmt pv : ℚ) : ℚ :=
  if rate = 0 then pv - pmt * (nper : ℚ)
  else max 0 (pv * (1 + rate) ^ nper - pmt * (((1 + rate) ^ nper - 1) / rate))

/-- `calculate_remaining_principal(loan_amount, annual_rate, term_years,
payments_made)`. -/
def calculate_remaining_principal (loan_amount annual_rate : ℚ)
    (term_years payments_made : ℕ) : ℚ :=
  if loan_amount ≤ 0 ∨ term_years = 0 ∨ payments_made = 0 then 0
  else
    calculate_fv (annual_rate / 12 / 100) payments_made
      (calculate_monthly_payment loan_amount annual_rate term_years) loan_amount

/-- `calculate_annual_debt_service(loan_amount, annual_rate, term_years)`:
monthly payment × 12. -/
def calculate_annual_debt_service (loan_amount annual_rate : ℚ) (term_years : ℕ) : ℚ :=
  calculate_monthly_payment loan_amount annual_rate term_years * 12

/-! ## Projections -/

/-- The loop of `calculate_income_projection`: emit the current value at
the current year, then escalate. -/
def incomeLoop (escalator : ℚ) : ℚ → ℕ → ℕ → List (ℕ × ℚ)
  | _, _, 0 => []
  | current, year, n + 1 =>
      (year, current) :: incomeLoop escalator (current * (1 + escalator / 100)) (year + 1) n

/-- `calculate_income_projection(year_1_income, escalator, years)`. -/
def calculate_income_projection (year_1_income escalator : ℚ) (years : ℕ) :
    List (ℕ × ℚ) :=
  incomeLoop escalator year_1_income 1 years

/-- The loop of `calculate_price_per_projection` (same loop as
`calculate_income_projection`, written out separately in the source). -/
def projLoop (escalator : ℚ) : ℚ → ℕ → ℕ → List (ℕ × ℚ)
  | _, _, 0 => []
  | current, year, n + 1 =>
      (year, current) :: projLoop escalator (current * (1 + escalator / 100)) (year + 1) n

/-- `calculate_price_per_projection(price_per, escalator, years)`. -/
def calculate_price_per_projection (price_per escalator : ℚ) (years : ℕ) :
    List (ℕ × ℚ) :=
  projLoop escalator price_per 1 years

/-- The loop of `calculate_rent_projection`: for each year 1..years,
rent[year] = price_per_projection[year] * total_sqft. -/
def rentLoop (ppp : List (ℕ × ℚ)) (total_sqft : ℚ) : ℕ → ℕ → List (ℕ × ℚ)
  | _, 0 => []
  | year, n + 1 =>
      (year, dictGet ppp year * total_sqft) :: rentLoop ppp total_sqft (year + 1) n

/-- `calculate_rent_projection(price_per, total_sqft, escalator, years)`. -/
def calculate_rent_projection (price_per total_sqft escalator : ℚ) (years : ℕ) :
    List (ℕ × ℚ) :=
  rentLoop (calculate_price_per_projection price_per escalator years) total_sqft 1 years

/-! ## Scenario, financing resolver, cash-flow projector -/

/-- A scenario record; each field models the corresponding key read with
`scenario.get(key, default)` in the source (missing keys are folded into
the field value). -/
structure Scenario where
  type : String
  rate : ℚ
  term : ℕ
  loan_percent : ℚ
  down_payment_percent : ℚ
  additional_startup : ℚ
  adjusted_raise : ℚ
  deriving DecidableEq

/-- Result dict of `calculate_loan_metrics`. -/
structure LoanMetrics where
  loan_amount : ℚ
  down_payment : ℚ
  raise_amount : ℚ
  difference_reserve_cash : ℚ
  deriving DecidableEq

/-- `calculate_loan_metrics(project_cost, scenario)`. -/
def calculate_loan_metrics (project_cost : ℚ) (sc : Scenario) : LoanMetrics :=
  let loan_amount := project_cost * (sc.loan_percent / 100)
  let down_payment := project_cost * (sc.down_payment_percent / 100)
  let raise_amount := down_payment + sc.additional_startup
  ⟨loan_amount, down_payment, raise_amount, sc.adjusted_raise - raise_amount⟩

/-- One row of the 10-year cash-flow table
(Year, Rent, Cash Flow, Adjusted %, GP %, LP %, LP CoC). -/
structure CashFlowRow where
  year : ℕ
  rent : ℚ
  cash_flow : ℚ
  adjusted : ℚ
  gp_amount : ℚ
  lp_amount : ℚ
  lp_coc : ℚ
  deriving DecidableEq

/-- `calculate_10_year_cash_flow(scenario, price_per_projection,
total_sqft, annual_costs, project_cost, adjusted_percent, gp_percent,
lp_percent)`: the loop `for year in range(1, 11)` over the row formulas;
annual debt service is computed once before the loop and is 0 for any
non-"Loan" scenario type. -/
def calculate_10_year_cash_flow (sc : Scenario) (price_per_projection : List (ℕ × ℚ))
    (total_sqft annual_costs project_cost adjusted_percent gp_percent lp_percent : ℚ) :
    List CashFlowRow :=
  let loan_metrics := calculate_loan_metrics project_cost sc
  let annual_debt_service : ℚ :=
    if sc.type = "Loan" then
      calculate_annual_debt_service loan_metrics.loan_amount sc.rate sc.term
    else 0
  let adjusted_raise := sc.adjusted_raise
  (List.range' 1 10).map (fun year =>
    let price_per := dictGet price_per_projection year
    let rent := price_per * total_sqft
    let cash_flow := rent - annual_costs - annual_debt_service
    let adjusted := cash_flow * adjusted_percent
    let gp_amount := adjusted * gp_percent
    let lp_amount := adjusted * lp_percent
    let lp_coc := if 0 < adjusted_raise then lp_amount / adjusted_raise * 100 else 0
    ⟨year, rent, cash_flow, adjusted, gp_amount, lp_amount, lp_coc⟩)

/-! ## IRR solver -/

/-- `npv(rate)` inside `calculate_irr_manual`:
`sum(cf / (1 + rate)**i for i, cf in enumerate(cash_flows))`. -/
def npv (cash_flows : List ℚ) (rate : ℚ) : ℚ :=
  (cash_flows.enum.map (fun p => p.2 / (1 + rate) ^ p.1)).sum

/-- `npv_derivative(rate)` inside `calculate_irr_manual`:
`sum(-i * cf / (1 + rate)**(i+1) for i, cf in enumerate(cash_flows))`. -/
def npv_derivative (cash_flows : List ℚ) (rate : ℚ) : ℚ :=
  (cash_flows.enum.map (fun p => -(p.1 : ℚ) * p.2 / (1 + rate) ^ (p.1 + 1))).sum

/-- The `for _ in range(max_iter)` loop of `calculate_irr_manual`,
with the remaining iteration budget as fuel.  Returns `some rate` on
convergence (`|npv| < tolerance`), `none` when the budget is exhausted
or the derivative magnitude falls below tolerance (the loop `break`). -/
def irr_go (cash_flows : List ℚ) (tolerance : ℚ) : ℕ → ℚ → Option ℚ
  | 0, _ => none
  | n + 1, rate =>
    let npv_val := npv cash_flows rate
    if |npv_val| < tolerance then some rate
    else
      let npv_deriv := npv_derivative cash_flows rate
      if |npv_deriv| < tolerance then none
      else irr_go cash_flows tolerance n (rate - npv_val / npv_deriv)

/-- `calculate_irr_manual(cash_flows, guess, tolerance, max_iter)`. -/
def calculate_irr_manual (cash_flows : List ℚ) (guess tolerance : ℚ)
    (max_iter : ℕ) : Option ℚ :=
  irr_go cash_flows tolerance max_iter guess

/-- `calculate_irr(initial_investment, cash_flows)`: prepends
`-abs(initial_investment)` to the series and runs the Newton–Raphson
fallback with guess 0.1, tolerance 1e-6, max 100 iterations, scaling a
found rate by 100.  (The optional `numpy_financial` fast path is an
external library, not part of this repository; the fallback path is the
code under verification.) -/
def calculate_irr (initial_investment : ℚ) (cash_flows : List ℚ) : Option ℚ :=
  (calculate_irr_manual ((-|initial_investment|) :: cash_flows) (1/10) (1/1000000) 100).map
    (fun r => r * 100)

/-! ## Waterfall distributor -/

/-- One tier row of the waterfall result
(return_percent, amount, gp, lp). -/
structure TierDist where
  return_percent : ℚ
  amount : ℚ
  gp : ℚ
  lp : ℚ
  deriving DecidableEq

/-- The full waterfall result dict; the fixed iteration order of the
`tiers` dict (tier1, tier2, tier3) is materialised as three fields. -/
structure WaterfallResult where
  left_to_distribute : ℚ
  adjusted_raise : ℚ
  hurdle : TierDist
  tier1 : TierDist
  tier2 : TierDist
  tier3 : TierDist
  gp_total : ℚ
  lp_total : ℚ
  total_distributed : ℚ
  left_over : ℚ
  lp_multiple : ℚ
  deriving DecidableEq

/-- The hurdle tier of `calculate_waterfall_distribution`: returns the
hurdle row, the remaining balance, and the LP total so far
(the GP total is unchanged at 0). -/
def hurdleStep (adjusted_raise hurdle_rate : ℚ) (years_held : ℕ) (remaining : ℚ) :
    TierDist × ℚ × ℚ :=
  let hurdle_return := adjusted_raise * (((1 + hurdle_rate / 100) ^ years_held) - 1)
  if hurdle_return ≤ remaining then
    (⟨hurdle_rate, hurdle_return, 0, hurdle_return⟩, remaining - hurdle_return, hurdle_return)
  else
    (⟨hurdle_rate, remaining, 0, remaining⟩, 0, remaining)

/-- One iteration of the profit-tier loop of
`calculate_waterfall_distribution`, on state (remaining, gp_total,
lp_total).  `none` models the `ZeroDivisionError` raised by
`remaining / (gp_percent / 100)` when `gp_percent = 0` (Python reaches
that division exactly when the tier is entered with `remaining > 0`). -/
def tierStep (gp_percent lp_percent ret remaining gp_total lp_total : ℚ) :
    Option (TierDist × ℚ × ℚ × ℚ) :=
  if remaining ≤ 0 then
    some (⟨ret, 0, 0, 0⟩, remaining, gp_total, lp_total)
  else if gp_percent = 0 then none
  else
    let gp_share_from_remaining := (remaining / (gp_percent / 100)) * (lp_percent / 100)
    let gp_amount :=
      if gp_share_from_remaining ≤ remaining then gp_share_from_remaining
      else remaining * (gp_percent / 100)
    let lp_amount :=
      if gp_share_from_remaining ≤ remaining then remaining - gp_amount
      else remaining * (lp_percent / 100)
    some (⟨ret, remaining, gp_amount, lp_amount⟩,
      remaining - (gp_amount + lp_amount), gp_total + gp_amount, lp_total + lp_amount)

/-- `calculate_waterfall_distribution(left_to_distribute, adjusted_raise,
gp_percent, lp_percent, hurdle_rate, years_held)`: hurdle tier, then the
three fixed profit tiers with return labels 8, 15, 50 in that order.
`none` models the `ZeroDivisionError` for `gp_percent = 0` with a
positive balance. -/
def calculate_waterfall_distribution (left_to_distribute adjusted_raise gp_percent
    lp_percent hurdle_rate : ℚ) (years_held : ℕ) : Option WaterfallResult :=
  let h0 := hurdleStep adjusted_raise hurdle_rate years_held left_to_distribute
  (tierStep gp_percent lp_percent 8 h0.2.1 0 h0.2.2).bind (fun s1 =>
    (tierStep gp_percent lp_percent 15 s1.2.1 s1.2.2.1 s1.2.2.2).bind (fun s2 =>
      (tierStep gp_percent lp_percent 50 s2.2.1 s2.2.2.1 s2.2.2.2).map (fun s3 =>
        ⟨left_to_distribute, adjusted_raise, h0.1, s1.1, s2.1, s3.1,
          s3.2.2.1, s3.2.2.2, left_to_distribute - s3.2.1, s3.2.1,
          if 0 < adjusted_raise then (adjusted_raise + s3.2.2.2) / adjusted_raise
          else 0⟩)))

/-! ## Helper lemmas -/

lemma hurdleStep_conserves (adjusted_raise hurdle_rate : ℚ) (years_held : ℕ)
    (remaining : ℚ) :
    (hurdleStep adjusted_raise hurdle_rate years_held remaining).2.2 +
      (hurdleStep adjusted_raise hurdle_rate years_held remaining).2.1 = remaining := by
  simp only [hurdleStep]
  split_ifs <;> dsimp only <;> ring

lemma tierStep_conserves {gp_percent lp_percent ret remaining gp_total lp_total : ℚ}
    {t : TierDist} {r' g' l' : ℚ}
    (h : tierStep gp_percent lp_percent ret remaining gp_total lp_total =
      some (t, r', g', l')) :
    g' + l' + r' = gp_total + lp_total + remaining := by
  simp only [tierStep] at h
  split_ifs at h with h1 h2 h3 <;>
    simp only [Option.some.injEq, Prod.mk.injEq] at h
  · obtain ⟨-, hr, hg, hl⟩ := h
    subst hr; subst hg; subst hl; ring
  · obtain ⟨-, hr, hg, hl⟩ := h
    subst hr; subst hg; subst hl; ring
  · obtain ⟨-, hr, hg, hl⟩ := h
    subst hr; subst hg; subst hl; ring

lemma tierStep_nonpos (gp_percent lp_percent ret remaining gp_total lp_total : ℚ)
    (hr : remaining ≤ 0) :
    tierStep gp_percent lp_percent ret remaining gp_total lp_total =
      some (⟨ret, 0, 0, 0⟩, remaining, gp_total, lp_total) := by
  simp only [tierStep]
  rw [if_pos hr]

lemma tierStep_some (gp_percent lp_percent ret remaining gp_total lp_total : ℚ)
    (hgp : gp_percent ≠ 0) :
    ∃ s, tierStep gp_percent lp_percent ret remaining gp_total lp_total = some s := by
  by_cases h1 : remaining ≤ 0
  · exact ⟨_, tierStep_nonpos gp_percent lp_percent ret remaining gp_total lp_total h1⟩
  · simp only [tierStep, if_neg h1, if_neg hgp]
    exact ⟨_, rfl⟩

lemma tierStep_amount {gp_percent lp_percent ret remaining gp_total lp_total : ℚ}
    {t : TierDist} {r' g' l' : ℚ} (hr : 0 < remaining)
    (h : tierStep gp_percent lp_percent ret remaining gp_total lp_total =
      some (t, r', g', l')) :
    t.amount = remaining := by
  simp only [tierStep] at h
  rw [if_neg (not_le.mpr hr)] at h
  split_ifs at h with h2 h3 <;>
    simp only [Option.some.injEq, Prod.mk.injEq] at h
  · rw [← h.1]
  · rw [← h.1]

lemma tierStep_exhausts {gp_percent lp_percent ret remaining gp_total lp_total : ℚ}
    {t : TierDist} {r' g' l' : ℚ} (hsum : gp_percent + lp_percent = 100)
    (hr : 0 < remaining)
    (h : tierStep gp_percent lp_percent ret remaining gp_total lp_total =
      some (t, r', g', l')) :
    r' = 0 := by
  simp only [tierStep] at h
  rw [if_neg (not_le.mpr hr)] at h
  split_ifs at h with h2 h3 <;>
    simp only [Option.some.injEq, Prod.mk.injEq] at h
  · obtain ⟨-, hrr, -, -⟩ := h
    rw [← hrr]; ring
  · obtain ⟨-, hrr, -, -⟩ := h
    rw [← hrr]
    linear_combination (-remaining / 100) * hsum

lemma incomeLoop_eq_projLoop (escalator : ℚ) :
    ∀ (n : ℕ) (current : ℚ) (year : ℕ),
      incomeLoop escalator current year n = projLoop escalator current year n
  | 0, _, _ => rfl
  | n + 1, current, year => by
    simp only [incomeLoop, projLoop]
    rw [incomeLoop_eq_projLoop escalator n]

lemma projLoop_keys (escalator : ℚ) :
    ∀ (n : ℕ) (current : ℚ) (year : ℕ),
      (projLoop escalator current year n).map Prod.fst = List.range' year n
  | 0, _, _ => rfl
  | n + 1, current, year => by
    simp only [projLoop, List.map_cons]
    rw [projLoop_keys escalator n, List.range'_succ]

lemma projLoop_lookup (escalator : ℚ) :
    ∀ (n : ℕ) (current : ℚ) (start k : ℕ), start ≤ k → k < start + n →
      dictGet (projLoop escalator current start n) k =
        current * (1 + escalator / 100) ^ (k - start)
  | 0, _, start, k, hle, hlt => by omega
  | n + 1, current, start, k, hle, hlt => by
    simp only [projLoop, dictGet]
    by_cases hk : start = k
    · rw [if_pos hk]
      subst hk
      simp
    · rw [if_neg hk]
      have h1 : start + 1 ≤ k := by omega
      rw [projLoop_lookup escalator n _ (start + 1) k h1 (by omega)]
      have h2 : k - start = k - (start + 1) + 1 := by omega
      rw [h2, pow_succ]
      ring

lemma rentLoop_lookup (ppp : List (ℕ × ℚ)) (total_sqft : ℚ) :
    ∀ (n : ℕ) (start k : ℕ), start ≤ k → k < start + n →
      dictGet (rentLoop ppp total_sqft start n) k = dictGet ppp k * total_sqft
  | 0, start, k, hle, hlt => by omega
  | n + 1, start, k, hle, hlt => by
    simp only [rentLoop, dictGet]
    by_cases hk : start = k
    · rw [if_pos hk, hk]
    · rw [if_neg hk]
      exact rentLoop_lookup ppp total_sqft n (start + 1) k (by omega) (by omega)

lemma irr_go_some_converged :
    ∀ (n : ℕ) (cash_flows : List ℚ) (tolerance rate r : ℚ),
      irr_go cash_flows tolerance n rate = some r → |npv cash_flows r| < tolerance
  | 0, cash_flows, tolerance, rate, r, h => by simp [irr_go] at h
  | n + 1, cash_flows, tolerance, rate, r, h => by
    simp only [irr_go] at h
    by_cases h1 : |npv cash_flows rate| < tolerance
    · rw [if_pos h1] at h
      obtain rfl : rate = r := by simpa using h
      exact h1
    · rw [if_neg h1] at h
      by_cases h2 : |npv_derivative cash_flows rate| < tolerance
      · rw [if_pos h2] at h
        exact Option.noConfusion h
      · rw [if_neg h2] at h
        exact irr_go_some_converged n cash_flows tolerance _ r h

lemma irr_go_converged (cash_flows : List ℚ) (tolerance rate : ℚ) (n : ℕ)
    (h : |npv cash_flows rate| < tolerance) :
    irr_go cash_flows tolerance (n + 1) rate = some rate := by
  rw [irr_go]
  simp [h]

/-! ## Claim theorems -/

/-- C2 (code bug): the zero-rate branch of `calculate_fv` is not clamped
at 0, so `calculate_remaining_principal` reports a negative remaining
principal once the payments made exceed what the straight-line schedule
implies — contradicting the function's own documentation ("Remaining
principal (>= 0)") and the spec. Evaluated at loan 1200, rate 0, term 1
year, 24 payments made. -/
theorem remaining_principal_negative_zero_rate :
    calculate_fv 0 2 5 3 = -7 ∧
    calculate_remaining_principal 1200 0 1 24 = -1200 ∧
    calculate_remaining_principal 1200 0 1 24 < 0 := by
  norm_num [calculate_remaining_principal, calculate_fv, calculate_monthly_payment]

/-- C7: `calculate_monthly_payment` returns `principal / (termYears*12)`
for every positive principal and positive term when the annual rate is 0
(straight-line, no division by zero), and returns 0 whenever the
principal is ≤ 0 or the term is ≤ 0. -/
theorem monthly_payment_zero_rate_and_guards :
    (∀ (loan : ℚ) (term : ℕ), 0 < loan → term ≠ 0 →
      calculate_monthly_payment loan 0 term = loan / ((term : ℚ) * 12)) ∧
    (∀ (loan rate : ℚ) (term : ℕ), loan ≤ 0 ∨ term = 0 →
      calculate_monthly_payment loan rate term = 0) := by
  constructor
  · intro loan term hloan hterm
    simp only [calculate_monthly_payment]
    rw [if_neg (by push_neg; exact ⟨hloan, hterm⟩)]
    simp
  · intro loan rate term hguard
    simp only [calculate_monthly_payment]
    rw [if_pos hguard]

/-- Witness for C7 at loan 1200, term 1 year (zero rate) and loan 0
(guard). -/
theorem monthly_payment_zero_rate_and_guards_witness :
    calculate_monthly_payment 1200 0 1 = 1200 / (((1 : ℕ) : ℚ) * 12) ∧
    calculate_monthly_payment 0 7 25 = 0 :=
  ⟨monthly_payment_zero_rate_and_guards.1 1200 1 (by norm_num) (by norm_num),
   monthly_payment_zero_rate_and_guards.2 0 7 25 (Or.inl le_rfl)⟩

/-- C9 (counterexample): with base price 0 and escalator 5 > 0 the
projection is constantly 0, so the sequence is not strictly
monotonically increasing for every positive escalator. -/
theorem price_projection_not_strict_mono :
    (0 : ℚ) < 5 ∧
    dictGet (calculate_price_per_projection 0 5 10) 1 = 0 ∧
    dictGet (calculate_price_per_projection 0 5 10) 2 = 0 ∧
    ¬ dictGet (calculate_price_per_projection 0 5 10) 1 <
        dictGet (calculate_price_per_projection 0 5 10) 2 := by
  norm_num [calculate_price_per_projection, projLoop, dictGet]

/-- C9 (amended): `calculate_price_per_projection(basePrice, escalator)`
returns a length-10 sequence keyed 1..10 in order, whose period-1 value
is the base price and whose each subsequent value is the prior value
times (1 + escalator/100); it is strictly monotonically increasing when
escalator > 0 provided the base price is positive, and constant when
escalator = 0. -/
theorem price_projection_spec (base esc : ℚ) :
    ((calculate_price_per_projection base esc 10).map Prod.fst = List.range' 1 10) ∧
    ((calculate_price_per_projection base esc 10).length = 10) ∧
    (dictGet (calculate_price_per_projection base esc 10) 1 = base) ∧
    (∀ y, 1 ≤ y → y < 10 →
      dictGet (calculate_price_per_projection base esc 10) (y + 1) =
        dictGet (calculate_price_per_projection base esc 10) y * (1 + esc / 100)) ∧
    (0 < esc → 0 < base → ∀ y, 1 ≤ y → y < 10 →
      dictGet (calculate_price_per_projection base esc 10) y <
        dictGet (calculate_price_per_projection base esc 10) (y + 1)) ∧
    (esc = 0 → ∀ y, 1 ≤ y → y ≤ 10 →
      dictGet (calculate_price_per_projection base esc 10) y = base) := by
  have hval : ∀ y, 1 ≤ y → y ≤ 10 →
      dictGet (calculate_price_per_projection base esc 10) y =
        base * (1 + esc / 100) ^ (y - 1) :=
    fun y h1 h2 => projLoop_lookup esc 10 base 1 y h1 (by omega)
  refine ⟨projLoop_keys esc 10 base 1, ?_, ?_, ?_, ?_, ?_⟩
  · have := congrArg List.length (projLoop_keys esc 10 base 1)
    simpa using this
  · simpa using hval 1 le_rfl (by norm_num)
  · intro y hy1 hy10
    obtain ⟨m, rfl⟩ : ∃ m, y = m + 1 := ⟨y - 1, by omega⟩
    rw [hval (m + 1 + 1) (by omega) (by omega), hval (m + 1) (by omega) (by omega)]
    simp only [Nat.add_sub_cancel]
    rw [pow_succ]
    ring
  · intro hesc hbase y hy1 hy10
    obtain ⟨m, rfl⟩ : ∃ m, y = m + 1 := ⟨y - 1, by omega⟩
    rw [hval (m + 1 + 1) (by omega) (by omega), hval (m + 1) (by omega) (by omega)]
    simp only [Nat.add_sub_cancel]
    have hq : 1 < 1 + esc / 100 := by linarith [div_pos hesc (by norm_num : (0:ℚ) < 100)]
    exact mul_lt_mul_of_pos_left (pow_lt_pow_right₀ hq (Nat.lt_succ_self m)) hbase
  · intro hesc y hy1 hy10
    rw [hval y hy1 hy10, hesc]
    norm_num

/-- Witness for C9 (amended) at base 35, escalator 3: period 1 is the
base price and the projection strictly increases from period 1 to 2. -/
theorem price_projection_spec_witness :
    dictGet (calculate_price_per_projection 35 3 10) 1 = 35 ∧
    dictGet (calculate_price_per_projection 35 3 10) 1 <
      dictGet (calculate_price_per_projection 35 3 10) (1 + 1) :=
  ⟨(price_projection_spec 35 3).2.2.1,
   (price_projection_spec 35 3).2.2.2.2.1 (by norm_num) (by norm_num) 1 le_rfl
     (by norm_num)⟩

/-- C10: `calculate_income_projection` and
`calculate_price_per_projection` are extensionally equal, and
`calculate_rent_projection` is the price-per projection scaled pointwise
by the total square footage. -/
theorem projection_equivalence :
    (∀ (x e : ℚ) (n : ℕ),
      calculate_income_projection x e n = calculate_price_per_projection x e n) ∧
    (∀ (p s e : ℚ) (n y : ℕ), 1 ≤ y → y ≤ n →
      dictGet (calculate_rent_projection p s e n) y =
        dictGet (calculate_price_per_projection p e n) y * s) := by
  constructor
  · intro x e n
    exact incomeLoop_eq_projLoop e n x 1
  · intro p s e n y h1 h2
    exact rentLoop_lookup (calculate_price_per_projection p e n) s n 1 y h1 (by omega)

/-- Witness for C10 at concrete inputs. -/
theorem projection_equivalence_witness :
    calculate_income_projection 35 3 10 = calculate_price_per_projection 35 3 10 ∧
    dictGet (calculate_rent_projection 35 1500 3 10) 4 =
      dictGet (calculate_price_per_projection 35 3 10) 4 * 1500 :=
  ⟨projection_equivalence.1 35 3 10,
   projection_equivalence.2 35 1500 3 10 4 (by norm_num) (by norm_num)⟩

/-- Concrete waterfall run shared by the waterfall witnesses:
proceeds 100, adjusted raise 0, GP 20%, LP 80%, hurdle 8%, 10 years. -/
lemma waterfall_eval_100 :
    calculate_waterfall_distribution 100 0 20 80 8 10 =
      some ⟨100, 0, ⟨8, 0, 0, 0⟩, ⟨8, 100, 20, 80⟩, ⟨15, 0, 0, 0⟩, ⟨50, 0, 0, 0⟩,
        20, 80, 100, 0, 0⟩ := by
  have h1 : hurdleStep 0 8 10 100 = (⟨8, 0, 0, 0⟩, 100, 0) := by norm_num [hurdleStep]
  have h2 : tierStep 20 80 8 100 0 0 = some (⟨8, 100, 20, 80⟩, 0, 20, 80) := by
    norm_num [tierStep]
  have h3 : tierStep 20 80 15 0 20 80 = some (⟨15, 0, 0, 0⟩, 0, 20, 80) :=
    tierStep_nonpos 20 80 15 0 20 80 le_rfl
  have h4 : tierStep 20 80 50 0 20 80 = some (⟨50, 0, 0, 0⟩, 0, 20, 80) :=
    tierStep_nonpos 20 80 50 0 20 80 le_rfl
  simp only [calculate_waterfall_distribution, h1, h2, h3, h4, Option.some_bind,
    Option.map_some']
  norm_num

/-- C1 (counterexample): `calculate_waterfall_distribution` is not total:
with gpPercent = 0 and proceeds remaining after the hurdle tier, Python
raises `ZeroDivisionError` at `remaining / (gp_percent / 100)`
(modelled as `none`). -/
theorem waterfall_zero_gp_division_error :
    calculate_waterfall_distribution 100 0 0 100 8 10 = none := by
  have h1 : hurdleStep 0 8 10 100 = (⟨8, 0, 0, 0⟩, 100, 0) := by norm_num [hurdleStep]
  have h2 : tierStep 0 100 8 100 0 0 = none := by norm_num [tierStep]
  simp only [calculate_waterfall_distribution, h1, h2, Option.none_bind]

/-- C1 (amended): `calculate_waterfall_distribution` terminates normally
and returns a result for every input with gpPercent ≠ 0 (the division by
`gp_percent / 100` is then defined in every tier). -/
theorem waterfall_total_nonzero_gp (left ar gp lp hr : ℚ) (yh : ℕ) (hgp : gp ≠ 0) :
    (calculate_waterfall_distribution left ar gp lp hr yh).isSome = true := by
  obtain ⟨s1, hs1⟩ :=
    tierStep_some gp lp 8 (hurdleStep ar hr yh left).2.1 0 (hurdleStep ar hr yh left).2.2 hgp
  obtain ⟨s2, hs2⟩ := tierStep_some gp lp 15 s1.2.1 s1.2.2.1 s1.2.2.2 hgp
  obtain ⟨s3, hs3⟩ := tierStep_some gp lp 50 s2.2.1 s2.2.2.1 s2.2.2.2 hgp
  simp [calculate_waterfall_distribution, hs1, hs2, hs3]

/-- Witness for C1 (amended) at a nonzero GP percentage. -/
theorem waterfall_total_nonzero_gp_witness :
    (calculate_waterfall_distribution 1000000 175000 20 80 8 10).isSome = true :=
  waterfall_total_nonzero_gp 1000000 175000 20 80 8 10 (by norm_num)

/-- C3: waterfall conservation — whenever
`calculate_waterfall_distribution` returns a result, the GP total plus
the LP total (which includes the hurdle-tier amount) plus the leftover
equals the amount to distribute, exactly. -/
theorem waterfall_conservation (left ar gp lp hr : ℚ) (yh : ℕ) (w : WaterfallResult)
    (h : calculate_waterfall_distribution left ar gp lp hr yh = some w) :
    w.gp_total + w.lp_total + w.left_over = left := by
  simp only [calculate_waterfall_distribution, Option.bind_eq_some,
    Option.map_eq_some'] at h
  obtain ⟨s1, hs1, s2, hs2, s3, hs3, hw⟩ := h
  obtain ⟨t1, r1, g1, l1⟩ := s1
  obtain ⟨t2, r2, g2, l2⟩ := s2
  obtain ⟨t3, r3, g3, l3⟩ := s3
  subst hw
  have c0 := hurdleStep_conserves ar hr yh left
  have c1 := tierStep_conserves hs1
  dsimp only at hs2 hs3 ⊢
  have c2 := tierStep_conserves hs2
  have c3 := tierStep_conserves hs3
  linarith

/-- Witness for C3 on the shared concrete waterfall run. -/
theorem waterfall_conservation_witness : (20 : ℚ) + 80 + 0 = 100 :=
  waterfall_conservation 100 0 20 80 8 10
    ⟨100, 0, ⟨8, 0, 0, 0⟩, ⟨8, 100, 20, 80⟩, ⟨15, 0, 0, 0⟩, ⟨50, 0, 0, 0⟩,
      20, 80, 100, 0, 0⟩ waterfall_eval_100

/-- C4: the hurdle tier — the target is
adjustedRaise × ((1 + hurdleRate/100)^yearsHeld − 1); when the target is
at most the proceeds the LP gets the full target, the GP 0, and the
target is subtracted from the remainder; when the proceeds are strictly
below the target the LP total is the whole proceeds, the GP total is 0,
and tier1/tier2/tier3 all record zero amount. -/
theorem waterfall_hurdle_tier (left ar gp lp hr : ℚ) (yh : ℕ) :
    (ar * ((1 + hr / 100) ^ yh - 1) ≤ left →
      hurdleStep ar hr yh left =
        (⟨hr, ar * ((1 + hr / 100) ^ yh - 1), 0, ar * ((1 + hr / 100) ^ yh - 1)⟩,
          left - ar * ((1 + hr / 100) ^ yh - 1), ar * ((1 + hr / 100) ^ yh - 1))) ∧
    (left < ar * ((1 + hr / 100) ^ yh - 1) →
      calculate_waterfall_distribution left ar gp lp hr yh =
        some ⟨left, ar, ⟨hr, left, 0, left⟩, ⟨8, 0, 0, 0⟩, ⟨15, 0, 0, 0⟩, ⟨50, 0, 0, 0⟩,
          0, left, left, 0, if 0 < ar then (ar + left) / ar else 0⟩) := by
  constructor
  · intro hle
    simp only [hurdleStep]
    rw [if_pos hle]
  · intro hlt
    have hh : hurdleStep ar hr yh left = (⟨hr, left, 0, left⟩, 0, left) := by
      simp only [hurdleStep]
      rw [if_neg (not_le.mpr hlt)]
    have h2 := tierStep_nonpos gp lp 8 0 0 left le_rfl
    have h3 := tierStep_nonpos gp lp 15 0 0 left le_rfl
    have h4 := tierStep_nonpos gp lp 50 0 0 left le_rfl
    simp only [calculate_waterfall_distribution, hh, h2, h3, h4, Option.some_bind,
      Option.map_some']
    norm_num

/-- Witness for C4: zero hurdle target below the proceeds, and a partial
hurdle (proceeds 0 below a target of 100). -/
theorem waterfall_hurdle_tier_witness :
    hurdleStep 175000 0 10 1000000 =
      (⟨0, 175000 * ((1 + 0 / 100) ^ 10 - 1), 0, 175000 * ((1 + 0 / 100) ^ 10 - 1)⟩,
        1000000 - 175000 * ((1 + 0 / 100) ^ 10 - 1), 175000 * ((1 + 0 / 100) ^ 10 - 1)) ∧
    calculate_waterfall_distribution 0 100 20 80 100 1 =
      some ⟨0, 100, ⟨100, 0, 0, 0⟩, ⟨8, 0, 0, 0⟩, ⟨15, 0, 0, 0⟩, ⟨50, 0, 0, 0⟩,
        0, 0, 0, 0, if 0 < (100 : ℚ) then ((100 : ℚ) + 0) / 100 else 0⟩ :=
  ⟨(waterfall_hurdle_tier 1000000 175000 20 80 0 10).1 (by norm_num),
   (waterfall_hurdle_tier 0 100 20 80 100 1).2 (by norm_num)⟩

/-- C5 (counterexample): the profit tiers do not always leave tier2 at
zero — with gpPercent = 10 and lpPercent = 80 (shares not summing to
100), tier1's split leaves a positive remainder and tier2 records
amount 10 on proceeds 100. -/
theorem waterfall_tier2_nonzero :
    (calculate_waterfall_distribution 100 0 10 80 8 10).map (fun w => w.tier2.amount) =
      some 10 ∧ (10 : ℚ) ≠ 0 := by
  have h1 : hurdleStep 0 8 10 100 = (⟨8, 0, 0, 0⟩, 100, 0) := by norm_num [hurdleStep]
  have h2 : tierStep 10 80 8 100 0 0 = some (⟨8, 100, 10, 80⟩, 10, 10, 80) := by
    norm_num [tierStep]
  have h3 : tierStep 10 80 15 10 10 80 = some (⟨15, 10, 1, 8⟩, 1, 11, 88) := by
    norm_num [tierStep]
  have h4 : tierStep 10 80 50 1 11 88 =
      some (⟨50, 1, 1/10, 4/5⟩, 1/10, 111/10, 444/5) := by
    norm_num [tierStep]
  refine ⟨?_, by norm_num⟩
  simp only [calculate_waterfall_distribution, h1, h2, h3, h4, Option.some_bind,
    Option.map_some']

/-- C5 (amended): when gpPercent + lpPercent = 100 and the function
returns a result, each profit tier consumes the entire remaining
balance: if proceeds remain after the hurdle tier, tier1 records the
full remaining amount and tier2 and tier3 record zero amount; if
nothing remains, all three record zero. -/
theorem waterfall_tier1_exhausts (left ar gp lp hr : ℚ) (yh : ℕ) (w : WaterfallResult)
    (hsum : gp + lp = 100)
    (h : calculate_waterfall_distribution left ar gp lp hr yh = some w) :
    (0 < (hurdleStep ar hr yh left).2.1 →
      w.tier1.amount = (hurdleStep ar hr yh left).2.1 ∧
        w.tier2.amount = 0 ∧ w.tier3.amount = 0) ∧
    ((hurdleStep ar hr yh left).2.1 ≤ 0 →
      w.tier1.amount = 0 ∧ w.tier2.amount = 0 ∧ w.tier3.amount = 0) := by
  simp only [calculate_waterfall_distribution, Option.bind_eq_some,
    Option.map_eq_some'] at h
  obtain ⟨s1, hs1, s2, hs2, s3, hs3, hw⟩ := h
  obtain ⟨t1, r1, g1, l1⟩ := s1
  obtain ⟨t2, r2, g2, l2⟩ := s2
  obtain ⟨t3, r3, g3, l3⟩ := s3
  subst hw
  dsimp only at hs2 hs3 ⊢
  constructor
  · intro hpos
    have ha1 : t1.amount = (hurdleStep ar hr yh left).2.1 := tierStep_amount hpos hs1
    have hr1 : r1 = 0 := tierStep_exhausts hsum hpos hs1
    subst hr1
    have e2 := (tierStep_nonpos gp lp 15 0 g1 l1 le_rfl).symm.trans hs2
    simp only [Option.some.injEq, Prod.mk.injEq] at e2
    obtain ⟨ht2, hr2, -, -⟩ := e2
    have hr2' : r2 = 0 := hr2.symm
    subst hr2'
    have e3 := (tierStep_nonpos gp lp 50 0 g2 l2 le_rfl).symm.trans hs3
    simp only [Option.some.injEq, Prod.mk.injEq] at e3
    obtain ⟨ht3, -, -, -⟩ := e3
    exact ⟨ha1, by rw [← ht2], by rw [← ht3]⟩
  · intro hnonpos
    have e1 := (tierStep_nonpos gp lp 8 _ 0 _ hnonpos).symm.trans hs1
    simp only [Option.some.injEq, Prod.mk.injEq] at e1
    obtain ⟨ht1, hr1, -, -⟩ := e1
    have hr1le : r1 ≤ 0 := hr1 ▸ hnonpos
    have e2 := (tierStep_nonpos gp lp 15 r1 g1 l1 hr1le).symm.trans hs2
    simp only [Option.some.injEq, Prod.mk.injEq] at e2
    obtain ⟨ht2, hr2, -, -⟩ := e2
    have hr2le : r2 ≤ 0 := hr2 ▸ hr1le
    have e3 := (tierStep_nonpos gp lp 50 r2 g2 l2 hr2le).symm.trans hs3
    simp only [Option.some.injEq, Prod.mk.injEq] at e3
    obtain ⟨ht3, -, -, -⟩ := e3
    exact ⟨by rw [← ht1], by rw [← ht2], by rw [← ht3]⟩

/-- Witness for C5 (amended) on the shared concrete waterfall run
(GP 20 + LP 80 = 100, 100 remaining after a zero hurdle). -/
theorem waterfall_tier1_exhausts_witness :
    (100 : ℚ) = (hurdleStep 0 8 10 100).2.1 ∧ (0 : ℚ) = 0 ∧ (0 : ℚ) = 0 :=
  (waterfall_tier1_exhausts 100 0 20 80 8 10
    ⟨100, 0, ⟨8, 0, 0, 0⟩, ⟨8, 100, 20, 80⟩, ⟨15, 0, 0, 0⟩, ⟨50, 0, 0, 0⟩,
      20, 80, 100, 0, 0⟩ (by norm_num) waterfall_eval_100).1
    (by norm_num [hurdleStep])

/-- C6: `calculate_10_year_cash_flow` produces exactly the 10 rows for
years 1..10 given by: income = priceProjection[year] × totalArea,
cash flow = income − annualOperatingCost − annualDebtService,
adjusted = cashFlow × adjustedFraction, gpAmount = adjusted × gpFraction,
lpAmount = adjusted × lpFraction, lpCashOnCash% = lpAmount / adjustedRaise
× 100 when adjustedRaise > 0 and 0 otherwise, where the annual debt
service is monthly payment × 12 on the loan amount when the scenario
type is "Loan" and 0 for every other type (including "Hybrid"). -/
theorem cash_flow_10yr_spec (sc : Scenario) (ppp : List (ℕ × ℚ))
    (total_sqft annual_costs project_cost adjusted_percent gp_percent lp_percent : ℚ) :
    calculate_10_year_cash_flow sc ppp total_sqft annual_costs project_cost
        adjusted_percent gp_percent lp_percent =
      (List.range' 1 10).map (fun year =>
        let income := dictGet ppp year * total_sqft
        let debt_service : ℚ :=
          if sc.type = "Loan" then
            calculate_monthly_payment (project_cost * (sc.loan_percent / 100))
              sc.rate sc.term * 12
          else 0
        let cash_flow := income - annual_costs - debt_service
        let adjusted := cash_flow * adjusted_percent
        let lp_amount := adjusted * lp_percent
        ⟨year, income, cash_flow, adjusted, adjusted * gp_percent, lp_amount,
          if 0 < sc.adjusted_raise then lp_amount / sc.adjusted_raise * 100 else 0⟩) ∧
    (calculate_10_year_cash_flow sc ppp total_sqft annual_costs project_cost
        adjusted_percent gp_percent lp_percent).length = 10 := by
  constructor
  · rfl
  · simp [calculate_10_year_cash_flow]

/-- C8: `calculate_irr` prepends −|initialInvestment| to the cash-flow
series and runs the Newton–Raphson fallback at guess 0.10, tolerance
1e-6, max 100 iterations; every returned value is a converged rate
scaled by 100 (|NPV| < tolerance at the returned rate/100), never a
guess; an exhausted iteration budget yields no result. -/
theorem calculate_irr_spec (initial_investment : ℚ) (cash_flows : List ℚ) :
    (calculate_irr initial_investment cash_flows =
      (calculate_irr_manual ((-|initial_investment|) :: cash_flows)
        (1/10) (1/1000000) 100).map (fun r => r * 100)) ∧
    (∀ r, calculate_irr initial_investment cash_flows = some r →
      |npv ((-|initial_investment|) :: cash_flows) (r / 100)| < 1/1000000) ∧
    (∀ (cfs : List ℚ) (guess tolerance : ℚ),
      calculate_irr_manual cfs guess tolerance 0 = none) := by
  refine ⟨rfl, ?_, fun _ _ _ => rfl⟩
  intro r hr
  simp only [calculate_irr, calculate_irr_manual, Option.map_eq_some'] at hr
  obtain ⟨r0, h0, rfl⟩ := hr
  have hc := irr_go_some_converged 100 _ _ _ _ h0
  have hdiv : r0 * 100 / 100 = r0 := by field_simp
  rw [hdiv]
  exact hc

/-- Witness for C8: a series converging at the initial guess 0.10
(−100 then 110), so the IRR is 10%. -/
theorem calculate_irr_spec_witness :
    calculate_irr 100 [110] = some 10 ∧
    |npv ((-|(100 : ℚ)|) :: [110]) (10 / 100)| < 1/1000000 := by
  have h0 : npv [-(100 : ℚ), 110] (1/10) = 0 := by
    norm_num [npv, List.enum, List.enumFrom]
  have h1 : irr_go [-(100 : ℚ), 110] (1/1000000) 100 (1/10) = some (1/10) :=
    irr_go_converged _ _ _ 99 (by rw [h0]; norm_num)
  have hsome : calculate_irr 100 [110] = some 10 := by
    norm_num [calculate_irr, calculate_irr_manual, h1]
  exact ⟨hsome, (calculate_irr_spec 100 [110]).2.1 10 hsome⟩

end RealEstateCalc
